import Mathlib

/-!
Shallow embedding of `app/models.py` (SQLModel data model and API schemas of
a CMS): enums, persistent entity records, junction records, transfer schemas
(Create / Update / Response), and the declared field constraints, together
with theorems settling the frozen claims about this data model.

Conventions of the embedding:
* Python `int` becomes `Int`; `datetime` becomes `Nat` (an abstract tick
  count); `Dict[str, Any]` (JSON metadata) becomes an association list
  `List (String × String)`, used only up to equality.
* A nullable / `Optional` Python field becomes `Option _`.
* Declared field constraints (`max_length`, `min_length`, `regex`) are
  embedded as executable boolean checks transcribed from the `Field(...)`
  declarations.
-/

namespace CMS

/-- JSON metadata payload (`Dict[str, Any]` stored as a JSON column); the
claims only ever compare it for equality, so an association list suffices. -/
abbrev MetaData : Type := List (String × String)

/-- `class UserRole(str, Enum)` — closed set {admin, editor}. -/
inductive UserRole where
  | admin
  | editor
deriving DecidableEq, Repr

/-- The string value of each `UserRole` member (`ADMIN = "admin"`,
`EDITOR = "editor"`). -/
def UserRole.value : UserRole → String
  | .admin => "admin"
  | .editor => "editor"

/-- Python `UserRole(s)` enum lookup: returns the member whose value is `s`,
fails (raises `ValueError`, here `none`) on any string outside the closed
set. -/
def UserRole.fromString (s : String) : Option UserRole :=
  if s = "admin" then some .admin
  else if s = "editor" then some .editor
  else none

/-- `class ContentStatus(str, Enum)` — closed set {draft, published,
archived}. -/
inductive ContentStatus where
  | draft
  | published
  | archived
deriving DecidableEq, Repr

/-- The string value of each `ContentStatus` member. -/
def ContentStatus.value : ContentStatus → String
  | .draft => "draft"
  | .published => "published"
  | .archived => "archived"

/-- Python `ContentStatus(s)` enum lookup: the member whose value is `s`, or
failure on any string outside the closed set. -/
def ContentStatus.fromString (s : String) : Option ContentStatus :=
  if s = "draft" then some .draft
  else if s = "published" then some .published
  else if s = "archived" then some .archived
  else none

/-- `class ContentType(str, Enum)` — closed set {post, page}. -/
inductive ContentType where
  | post
  | page
deriving DecidableEq, Repr

/-! ## Declared email pattern

`User.email` and `Comment.author_email` declare
`regex = ^[a-zA-Z0-9_.+-]+@[a-zA-Z0-9-]+\.[a-zA-Z0-9-.]+$`.
The matcher below implements exactly this pattern: one or more local-part
characters, a single `@` (no character class of the pattern contains `@`),
one or more domain characters (no dot), a literal dot, then one or more
tail characters (dot allowed). -/

/-- Character class `[a-zA-Z0-9_.+-]` of the local part. -/
def isLocalChar (c : Char) : Bool :=
  c.isAlpha || c.isDigit || c == '_' || c == '.' || c == '+' || c == '-'

/-- Character class `[a-zA-Z0-9-]` of the domain segment before the first
dot. -/
def isDomainChar (c : Char) : Bool :=
  c.isAlpha || c.isDigit || c == '-'

/-- Character class `[a-zA-Z0-9-.]` of the part after the first dot of the
domain. -/
def isTailChar (c : Char) : Bool :=
  isDomainChar c || c == '.'

/-- Matcher for the declared email regex. Since the local and domain classes
exclude `@`, a match has exactly one `@`; since the domain class excludes
`.`, the `\.` of the pattern matches the first dot after the `@`. -/
def emailMatches (s : String) : Bool :=
  match s.toList.splitOn '@' with
  | [lp, dom] =>
    match dom.splitOn '.' with
    | d1 :: rest =>
      (!lp.isEmpty && lp.all isLocalChar) &&
      (!d1.isEmpty && d1.all isDomainChar) &&
      (!rest.isEmpty) &&
      (let tail := List.intercalate ['.'] rest
       !tail.isEmpty && tail.all isTailChar)
    | [] => false
  | _ => false

/-! ## Junction (many-to-many association) records -/

/-- `class PostCategory(SQLModel, table=True)`, table `post_categories`:
composite key (`post_id` → `posts.id`, `category_id` → `categories.id`). -/
structure PostCategory where
  post_id : Int
  category_id : Int
deriving DecidableEq, Repr

/-- `class PostTag(SQLModel, table=True)`, table `post_tags`: composite key
(`post_id` → `posts.id`, `tag_id` → `tags.id`). -/
structure PostTag where
  post_id : Int
  tag_id : Int
deriving DecidableEq, Repr

/-- Descriptor of one junction table: its `__tablename__` and the two tables
its foreign keys reference. -/
structure JunctionTable where
  name : String
  leftTable : String
  rightTable : String
deriving DecidableEq, Repr

/-- The junction record types declared in the model, transcribed from the
`table=True` classes with two-column composite keys: `post_categories`
(links `posts` and `categories`) and `post_tags` (links `posts` and
`tags`). These are the only junction tables in the file. -/
def junctionTables : List JunctionTable :=
  [⟨"post_categories", "posts", "categories"⟩,
   ⟨"post_tags", "posts", "tags"⟩]

/-! ## Persistent entity records (`table=True` classes)

SQLModel `table=True` models do not run pydantic validators when an
instance is constructed (this is documented SQLModel behaviour: a table
model does not validate data on creation). The constructors below therefore
store the given field values as-is; the declared `Field` constraints are
embedded separately as boolean validity predicates. -/

/-- `class User(SQLModel, table=True)`, table `users`. Server-assigned
identity is `id` (primary key, default `None` before insert). -/
structure User where
  id : Option Int
  username : String
  email : String
  password_hash : String
  first_name : String
  last_name : String
  role : UserRole
  is_active : Bool
  created_at : Nat
  updated_at : Nat
  last_login : Option Nat
deriving DecidableEq, Repr

/-- Construction of a `User` table record: SQLModel table models run no
field validation at `__init__`, so the record is built directly from the
given values; defaulted fields take their declared defaults
(`role=EDITOR`, `is_active=True`, timestamps from the clock `now`,
`id=None`, `last_login=None`). -/
def User.construct (username email password_hash first_name last_name : String)
    (now : Nat) : User :=
  { id := none
    username := username
    email := email
    password_hash := password_hash
    first_name := first_name
    last_name := last_name
    role := .editor
    is_active := true
    created_at := now
    updated_at := now
    last_login := none }

/-- The declared field constraints of `User`, transcribed from the
`Field(...)` declarations: `username` `max_length=50`, `email`
`max_length=255` with the email regex, `password_hash` `max_length=255`,
`first_name` and `last_name` `max_length=100`. -/
def User.constraintsOk (u : User) : Bool :=
  u.username.length ≤ 50 &&
  (u.email.length ≤ 255 && emailMatches u.email) &&
  u.password_hash.length ≤ 255 &&
  u.first_name.length ≤ 100 &&
  u.last_name.length ≤ 100

/-- `class Category(SQLModel, table=True)`, table `categories`:
self-referential tree via nullable `parent_id → categories.id`. -/
structure Category where
  id : Option Int
  name : String
  slug : String
  description : String
  parent_id : Option Int
  is_active : Bool
  created_at : Nat
deriving DecidableEq, Repr

/-- `class Tag(SQLModel, table=True)`, table `tags`. Its only relationship
is `posts` via `link_model=PostTag`. -/
structure Tag where
  id : Option Int
  name : String
  slug : String
  description : String
  color : String
  is_active : Bool
  created_at : Nat
deriving DecidableEq, Repr

/-- `class Post(SQLModel, table=True)`, table `posts`: belongs to a `User`
(`author_id → users.id`, required), M:N with `Category` and `Tag` via the
junction tables. -/
structure Post where
  id : Option Int
  title : String
  slug : String
  content : String
  excerpt : String
  status : ContentStatus
  featured_image : Option String
  meta_data : MetaData
  view_count : Int
  is_featured : Bool
  allow_comments : Bool
  author_id : Int
  published_at : Option Nat
  created_at : Nat
  updated_at : Nat
deriving DecidableEq, Repr

/-- `class Page(SQLModel, table=True)`, table `pages`: self-referential tree
via nullable `parent_id → pages.id`, belongs to a `User`
(`author_id → users.id`). Its declared fields carry no reference to
`Category` and no tag relationship. -/
structure Page where
  id : Option Int
  title : String
  slug : String
  content : String
  status : ContentStatus
  meta_data : MetaData
  template : String
  parent_id : Option Int
  sort_order : Int
  is_in_menu : Bool
  author_id : Int
  published_at : Option Nat
  created_at : Nat
  updated_at : Nat
deriving DecidableEq, Repr

/-- Column descriptor list of the `Page` table, transcribed field by field
from the class body: each entry is the field name paired with the table its
`foreign_key` references (`none` when the field has no foreign key). -/
def pageColumns : List (String × Option String) :=
  [("id", none),
   ("title", none),
   ("slug", none),
   ("content", none),
   ("status", none),
   ("meta_data", none),
   ("template", none),
   ("parent_id", some "pages"),
   ("sort_order", none),
   ("is_in_menu", none),
   ("author_id", some "users"),
   ("published_at", none),
   ("created_at", none),
   ("updated_at", none)]

/-- `class Comment(SQLModel, table=True)`, table `comments`: belongs to a
`Post`, self-referential reply tree via nullable `parent_id`;
`is_approved` defaults to `False`. -/
structure Comment where
  id : Option Int
  post_id : Int
  author_name : String
  author_email : String
  author_website : Option String
  content : String
  is_approved : Bool
  parent_id : Option Int
  created_at : Nat
deriving DecidableEq, Repr

/-- `class Media(SQLModel, table=True)`, table `media`: belongs to a `User`
via `uploaded_by → users.id`. -/
structure Media where
  id : Option Int
  filename : String
  original_filename : String
  file_path : String
  file_url : String
  mime_type : String
  file_size : Int
  alt_text : String
  caption : String
  meta_data : MetaData
  uploaded_by : Int
  created_at : Nat
deriving DecidableEq, Repr

/-! ## Transfer schemas (`table=False` classes)

Non-table SQLModel classes are plain pydantic models: they validate their
declared `Field` constraints at construction and record which fields the
caller explicitly provided (pydantic's fields-set). Update schemas below
therefore carry a `fields_set` component alongside the declared optional
field values: a field is *absent* when its name is not in `fields_set`,
*explicitly null* when its name is in `fields_set` and its value is `none`,
and *set* when its name is in `fields_set` and its value is `some _`. -/

/-- `class UserCreate(SQLModel, table=False)`: `username` (`max_length=50`),
`email` (`max_length=255`, no regex declared), `password` (`min_length=8`),
`first_name` / `last_name` (`max_length=100`), `role` (default editor). -/
structure UserCreate where
  username : String
  email : String
  password : String
  first_name : String
  last_name : String
  role : UserRole
deriving DecidableEq, Repr

/-- Pydantic validation of a `UserCreate` payload, transcribed constraint by
constraint from its `Field(...)` declarations. Note that the class declares
no `regex` on `email`, so only the length bound is checked. -/
def userCreateOk (c : UserCreate) : Bool :=
  c.username.length ≤ 50 &&
  c.email.length ≤ 255 &&
  8 ≤ c.password.length &&
  c.first_name.length ≤ 100 &&
  c.last_name.length ≤ 100

/-- `class UserUpdate(SQLModel, table=False)`: every field optional, plus
the pydantic fields-set recording which fields the payload provided. -/
structure UserUpdate where
  username : Option String
  email : Option String
  first_name : Option String
  last_name : Option String
  role : Option UserRole
  is_active : Option Bool
  fields_set : List String
deriving DecidableEq, Repr

/-- Modelled from the spec: applying a partial `UserUpdate` to a stored
`User` (the persistence layer is an external collaborator, absent from the
repository). A field absent from the payload's fields-set is left
unchanged; a provided field replaces the stored value (every `UserUpdate`
field is non-nullable in storage, so an explicitly null provided value
also leaves the stored value unchanged). -/
def applyUserUpdate (us : User) (u : UserUpdate) : User :=
  { us with
    username := if "username" ∈ u.fields_set then u.username.getD us.username else us.username
    email := if "email" ∈ u.fields_set then u.email.getD us.email else us.email
    first_name := if "first_name" ∈ u.fields_set then u.first_name.getD us.first_name else us.first_name
    last_name := if "last_name" ∈ u.fields_set then u.last_name.getD us.last_name else us.last_name
    role := if "role" ∈ u.fields_set then u.role.getD us.role else us.role
    is_active := if "is_active" ∈ u.fields_set then u.is_active.getD us.is_active else us.is_active }

/-- `class UserResponse(SQLModel, table=False)`: note the field list —
there is no `password` and no `password_hash` field. -/
structure UserResponse where
  id : Int
  username : String
  email : String
  first_name : String
  last_name : String
  role : UserRole
  is_active : Bool
  created_at : String
  last_login : Option String
deriving DecidableEq, Repr

/-- The declared field names of `UserResponse`, transcribed from the class
body in order. -/
def userResponseFields : List String :=
  ["id", "username", "email", "first_name", "last_name", "role",
   "is_active", "created_at", "last_login"]

/-- Modelled from the spec: ISO-8601 textual rendering of a timestamp
(`created_at: str  # ISO format`), abstracted to a canonical textual
encoding of the abstract time value. -/
def isoFormat (t : Nat) : String := toString t

/-- Modelled from the spec: serializing a stored `User` to a
`UserResponse` (the API layer is an external collaborator) — every
response field is populated from the stored record of the same name,
timestamps rendered textually. -/
def userToResponse (u : User) : UserResponse :=
  { id := u.id.getD 0
    username := u.username
    email := u.email
    first_name := u.first_name
    last_name := u.last_name
    role := u.role
    is_active := u.is_active
    created_at := isoFormat u.created_at
    last_login := u.last_login.map isoFormat }

/-- `class PostCreate(SQLModel, table=False)`. -/
structure PostCreate where
  title : String
  slug : String
  content : String
  excerpt : String
  status : ContentStatus
  featured_image : Option String
  meta_data : MetaData
  is_featured : Bool
  allow_comments : Bool
  category_ids : List Int
  tag_ids : List Int
deriving DecidableEq, Repr

/-- `class PostUpdate(SQLModel, table=False)`: every field optional, plus
the pydantic fields-set. -/
structure PostUpdate where
  title : Option String
  slug : Option String
  content : Option String
  excerpt : Option String
  status : Option ContentStatus
  featured_image : Option String
  meta_data : Option MetaData
  is_featured : Option Bool
  allow_comments : Option Bool
  category_ids : Option (List Int)
  tag_ids : Option (List Int)
  fields_set : List String
deriving DecidableEq, Repr

/-- Modelled from the spec: applying a partial `PostUpdate` to a stored
`Post`. Absent fields are left unchanged; a provided `featured_image` is
stored as given (it is the nullable stored field, so explicit null clears
it); `category_ids` / `tag_ids` drive junction edges, not `Post` fields. -/
def applyPostUpdate (p : Post) (u : PostUpdate) : Post :=
  { p with
    title := if "title" ∈ u.fields_set then u.title.getD p.title else p.title
    slug := if "slug" ∈ u.fields_set then u.slug.getD p.slug else p.slug
    content := if "content" ∈ u.fields_set then u.content.getD p.content else p.content
    excerpt := if "excerpt" ∈ u.fields_set then u.excerpt.getD p.excerpt else p.excerpt
    status := if "status" ∈ u.fields_set then u.status.getD p.status else p.status
    featured_image := if "featured_image" ∈ u.fields_set then u.featured_image else p.featured_image
    meta_data := if "meta_data" ∈ u.fields_set then u.meta_data.getD p.meta_data else p.meta_data
    is_featured := if "is_featured" ∈ u.fields_set then u.is_featured.getD p.is_featured else p.is_featured
    allow_comments := if "allow_comments" ∈ u.fields_set then u.allow_comments.getD p.allow_comments else p.allow_comments }

/-- `class PostResponse(SQLModel, table=False)`. -/
structure PostResponse where
  id : Int
  title : String
  slug : String
  content : String
  excerpt : String
  status : ContentStatus
  featured_image : Option String
  meta_data : MetaData
  view_count : Int
  is_featured : Bool
  allow_comments : Bool
  author_id : Int
  published_at : Option String
  created_at : String
  updated_at : String
deriving DecidableEq, Repr

/-- Modelled from the spec: serializing a stored `Post` to a
`PostResponse` — every response field populated from the stored record,
timestamps rendered textually. -/
def postToResponse (p : Post) : PostResponse :=
  { id := p.id.getD 0
    title := p.title
    slug := p.slug
    content := p.content
    excerpt := p.excerpt
    status := p.status
    featured_image := p.featured_image
    meta_data := p.meta_data
    view_count := p.view_count
    is_featured := p.is_featured
    allow_comments := p.allow_comments
    author_id := p.author_id
    published_at := p.published_at.map isoFormat
    created_at := isoFormat p.created_at
    updated_at := isoFormat p.updated_at }

/-- `class PageUpdate(SQLModel, table=False)`: every field optional, plus
the pydantic fields-set. The stored nullable field among these is
`parent_id`. -/
structure PageUpdate where
  title : Option String
  slug : Option String
  content : Option String
  status : Option ContentStatus
  meta_data : Option MetaData
  template : Option String
  parent_id : Option Int
  sort_order : Option Int
  is_in_menu : Option Bool
  fields_set : List String
deriving DecidableEq, Repr

/-- Modelled from the spec: applying a partial `PageUpdate` to a stored
`Page`. An absent field is left unchanged; a provided `parent_id` is stored
as given, so providing an explicit null clears the parent reference. -/
def applyPageUpdate (p : Page) (u : PageUpdate) : Page :=
  { p with
    title := if "title" ∈ u.fields_set then u.title.getD p.title else p.title
    slug := if "slug" ∈ u.fields_set then u.slug.getD p.slug else p.slug
    content := if "content" ∈ u.fields_set then u.content.getD p.content else p.content
    status := if "status" ∈ u.fields_set then u.status.getD p.status else p.status
    meta_data := if "meta_data" ∈ u.fields_set then u.meta_data.getD p.meta_data else p.meta_data
    template := if "template" ∈ u.fields_set then u.template.getD p.template else p.template
    parent_id := if "parent_id" ∈ u.fields_set then u.parent_id else p.parent_id
    sort_order := if "sort_order" ∈ u.fields_set then u.sort_order.getD p.sort_order else p.sort_order
    is_in_menu := if "is_in_menu" ∈ u.fields_set then u.is_in_menu.getD p.is_in_menu else p.is_in_menu }

/-- `class CategoryUpdate(SQLModel, table=False)`: every field optional,
plus the pydantic fields-set; the stored nullable field among these is
`parent_id`. -/
structure CategoryUpdate where
  name : Option String
  slug : Option String
  description : Option String
  parent_id : Option Int
  is_active : Option Bool
  fields_set : List String
deriving DecidableEq, Repr

/-- Modelled from the spec: applying a partial `CategoryUpdate` to a stored
`Category`; same conventions as `applyPageUpdate`. -/
def applyCategoryUpdate (c : Category) (u : CategoryUpdate) : Category :=
  { c with
    name := if "name" ∈ u.fields_set then u.name.getD c.name else c.name
    slug := if "slug" ∈ u.fields_set then u.slug.getD c.slug else c.slug
    description := if "description" ∈ u.fields_set then u.description.getD c.description else c.description
    parent_id := if "parent_id" ∈ u.fields_set then u.parent_id else c.parent_id
    is_active := if "is_active" ∈ u.fields_set then u.is_active.getD c.is_active else c.is_active }

/-- `class CommentCreate(SQLModel, table=False)`: note the field list —
there is no `is_approved` field. -/
structure CommentCreate where
  post_id : Int
  author_name : String
  author_email : String
  author_website : Option String
  content : String
  parent_id : Option Int
deriving DecidableEq, Repr

/-- The declared field names of `CommentCreate`, transcribed from the class
body in order. -/
def commentCreateFields : List String :=
  ["post_id", "author_name", "author_email", "author_website", "content",
   "parent_id"]

/-- `class CommentUpdate(SQLModel, table=False)`: optional `content` and
`is_approved`, plus the pydantic fields-set. -/
structure CommentUpdate where
  content : Option String
  is_approved : Option Bool
  fields_set : List String
deriving DecidableEq, Repr

/-- The declared field names of `CommentUpdate`, transcribed from the class
body in order. -/
def commentUpdateFields : List String := ["content", "is_approved"]

/-- Modelled from the spec: applying a partial `CommentUpdate` to a stored
`Comment`. -/
def applyCommentUpdate (cm : Comment) (u : CommentUpdate) : Comment :=
  { cm with
    content := if "content" ∈ u.fields_set then u.content.getD cm.content else cm.content
    is_approved := if "is_approved" ∈ u.fields_set then u.is_approved.getD cm.is_approved else cm.is_approved }

/-! ## Store and creation operations -/

/-- The relational store: one collection per `table=True` class, plus the
server's identity counter and clock. Modelled from the spec: the
persistence engine is an external collaborator; the table set is
transcribed from the `table=True` classes. -/
structure Store where
  users : List User
  categories : List Category
  tags : List Tag
  posts : List Post
  pages : List Page
  comments : List Comment
  media : List Media
  postCategories : List PostCategory
  postTags : List PostTag
  nextId : Int
  clock : Nat
deriving Repr

/-- Modelled from the spec: creating a `Post` from a validated `PostCreate`
payload. The server assigns the identity and the creation timestamps, every
payload field is copied into the stored record, server-defaulted fields
(`view_count`, `published_at`) take their declared defaults, and the
`category_ids` / `tag_ids` lists become junction edges. The clock advances
so later creations get later timestamps. -/
def createPost (s : Store) (c : PostCreate) (author : Int) : Store × Post :=
  let p : Post :=
    { id := some s.nextId
      title := c.title
      slug := c.slug
      content := c.content
      excerpt := c.excerpt
      status := c.status
      featured_image := c.featured_image
      meta_data := c.meta_data
      view_count := 0
      is_featured := c.is_featured
      allow_comments := c.allow_comments
      author_id := author
      published_at := none
      created_at := s.clock
      updated_at := s.clock }
  ({ s with
      posts := s.posts ++ [p]
      postCategories := s.postCategories ++ c.category_ids.map (fun cid => ⟨s.nextId, cid⟩)
      postTags := s.postTags ++ c.tag_ids.map (fun tid => ⟨s.nextId, tid⟩)
      nextId := s.nextId + 1
      clock := s.clock + 1 }, p)

/-- Modelled from the spec: creating a sequence of posts one after the
other, returning the created records in creation order. -/
def createPosts (s : Store) (cs : List PostCreate) (author : Int) :
    Store × List Post :=
  match cs with
  | [] => (s, [])
  | c :: rest =>
    let r1 := createPost s c author
    let r2 := createPosts r1.1 rest author
    (r2.1, r1.2 :: r2.2)

/-- Modelled from the spec: creating a `Comment` from a `CommentCreate`
payload. The payload carries no `is_approved` value, so the stored record
takes the entity's declared default `is_approved = False`. -/
def createComment (s : Store) (c : CommentCreate) : Store × Comment :=
  let cm : Comment :=
    { id := some s.nextId
      post_id := c.post_id
      author_name := c.author_name
      author_email := c.author_email
      author_website := c.author_website
      content := c.content
      is_approved := false
      parent_id := c.parent_id
      created_at := s.clock }
  ({ s with
      comments := s.comments ++ [cm]
      nextId := s.nextId + 1
      clock := s.clock + 1 }, cm)

/-- Creation order on stored posts: earlier-created posts have strictly
smaller assigned identities and strictly earlier creation timestamps (in
particular both are monotonically non-decreasing). -/
def createdBefore (p q : Post) : Prop :=
  (∃ i j, p.id = some i ∧ q.id = some j ∧ i < j) ∧
  p.created_at < q.created_at

/-! ## Helper lemmas about creation sequences -/

theorem createPost_snd_id (s : Store) (c : PostCreate) (a : Int) :
    (createPost s c a).2.id = some s.nextId := rfl

theorem createPost_snd_created_at (s : Store) (c : PostCreate) (a : Int) :
    (createPost s c a).2.created_at = s.clock := rfl

theorem createPost_fst_nextId (s : Store) (c : PostCreate) (a : Int) :
    (createPost s c a).1.nextId = s.nextId + 1 := rfl

theorem createPost_fst_clock (s : Store) (c : PostCreate) (a : Int) :
    (createPost s c a).1.clock = s.clock + 1 := rfl

theorem createPosts_mem_bounds (cs : List PostCreate) (s : Store) (a : Int) :
    ∀ p ∈ (createPosts s cs a).2,
      (∃ i, p.id = some i ∧ s.nextId ≤ i) ∧ s.clock ≤ p.created_at := by
  induction cs generalizing s with
  | nil =>
    intro p hp
    simp [createPosts] at hp
  | cons c rest ih =>
    intro p hp
    simp only [createPosts, List.mem_cons] at hp
    rcases hp with h | h
    · subst h
      exact ⟨⟨s.nextId, createPost_snd_id s c a, le_refl _⟩,
             le_of_eq (createPost_snd_created_at s c a).symm⟩
    · obtain ⟨⟨i, hi, hle⟩, hc⟩ := ih (createPost s c a).1 p h
      rw [createPost_fst_nextId] at hle
      rw [createPost_fst_clock] at hc
      exact ⟨⟨i, hi, by omega⟩, by omega⟩

theorem createPosts_pairwise (cs : List PostCreate) (s : Store) (a : Int) :
    ((createPosts s cs a).2).Pairwise createdBefore := by
  induction cs generalizing s with
  | nil =>
    simp [createPosts]
  | cons c rest ih =>
    simp only [createPosts]
    refine List.Pairwise.cons ?_ (ih (createPost s c a).1)
    intro q hq
    obtain ⟨⟨j, hj, hle⟩, hc⟩ :=
      createPosts_mem_bounds rest (createPost s c a).1 a q hq
    rw [createPost_fst_nextId] at hle
    rw [createPost_fst_clock] at hc
    constructor
    · exact ⟨s.nextId, j, createPost_snd_id s c a, hj, by omega⟩
    · rw [createPost_snd_created_at]
      omega

/-! ## Sample records used by the witness theorems -/

/-- A sample stored user. -/
def sampleUser : User :=
  { id := some 1
    username := "alice"
    email := "alice@example.com"
    password_hash := "h"
    first_name := "Ada"
    last_name := "Lovelace"
    role := .editor
    is_active := true
    created_at := 0
    updated_at := 0
    last_login := none }

/-- A sample stored page whose parent reference is set. -/
def samplePage : Page :=
  { id := some 1
    title := "Home"
    slug := "home"
    content := ""
    status := .draft
    meta_data := []
    template := "default"
    parent_id := some 2
    sort_order := 0
    is_in_menu := false
    author_id := 1
    published_at := none
    created_at := 0
    updated_at := 0 }

/-- A sample stored category whose parent reference is set. -/
def sampleCategory : Category :=
  { id := some 1
    name := "News"
    slug := "news"
    description := ""
    parent_id := some 2
    is_active := true
    created_at := 0 }

/-- A sample stored post. -/
def samplePost : Post :=
  { id := some 1
    title := "T"
    slug := "t"
    content := ""
    excerpt := ""
    status := .draft
    featured_image := none
    meta_data := []
    view_count := 0
    is_featured := false
    allow_comments := true
    author_id := 1
    published_at := none
    created_at := 0
    updated_at := 0 }

/-- A `PageUpdate` payload providing no field at all. -/
def pageUpdateAbsent : PageUpdate :=
  { title := none, slug := none, content := none, status := none
    meta_data := none, template := none, parent_id := none
    sort_order := none, is_in_menu := none, fields_set := [] }

/-- A `PageUpdate` payload providing only an explicitly null `parent_id`. -/
def pageUpdateNullParent : PageUpdate :=
  { pageUpdateAbsent with parent_id := none, fields_set := ["parent_id"] }

/-- A `PageUpdate` payload providing only `parent_id` set to `j`. -/
def pageUpdateSetParent (j : Int) : PageUpdate :=
  { pageUpdateAbsent with parent_id := some j, fields_set := ["parent_id"] }

/-- A `CategoryUpdate` payload providing no field at all. -/
def categoryUpdateAbsent : CategoryUpdate :=
  { name := none, slug := none, description := none, parent_id := none
    is_active := none, fields_set := [] }

/-- A `CategoryUpdate` payload providing only an explicitly null
`parent_id`. -/
def categoryUpdateNullParent : CategoryUpdate :=
  { categoryUpdateAbsent with parent_id := none, fields_set := ["parent_id"] }

/-- A `CategoryUpdate` payload providing only `parent_id` set to `j`. -/
def categoryUpdateSetParent (j : Int) : CategoryUpdate :=
  { categoryUpdateAbsent with parent_id := some j, fields_set := ["parent_id"] }

/-- A `UserUpdate` payload providing only `username`. -/
def usernameOnlyUpdate : UserUpdate :=
  { username := some "bob", email := none, first_name := none
    last_name := none, role := none, is_active := none
    fields_set := ["username"] }

/-- A `PostUpdate` payload providing only `title`. -/
def titleOnlyUpdate : PostUpdate :=
  { title := some "New", slug := none, content := none, excerpt := none
    status := none, featured_image := none, meta_data := none
    is_featured := none, allow_comments := none, category_ids := none
    tag_ids := none, fields_set := ["title"] }

/-- A `CommentUpdate` payload providing only `is_approved := true`. -/
def approveCommentUpdate : CommentUpdate :=
  { content := none, is_approved := some true, fields_set := ["is_approved"] }

/-- A `UserCreate` payload whose email violates the `User` email pattern
while satisfying every constraint `UserCreate` itself declares. -/
def malformedEmailCreate : UserCreate :=
  { username := "alice"
    email := "not-an-email"
    password := "password123"
    first_name := "Ada"
    last_name := "Lovelace"
    role := .editor }

/-- A username one character over the declared 50-character bound. -/
def longUsername : String := String.mk (List.replicate 51 'a')

/-! ## Claim theorems -/

/-- Claim C1, counterexample: the claim asserts a junction record type
linking Page and Tag; in the model the declared junction tables are exactly
`post_categories` and `post_tags`, and no junction table references both
`pages` and `tags`. -/
theorem pageTag_junction_absent :
    (junctionTables.any fun j =>
      (j.leftTable == "pages" || j.rightTable == "pages") &&
      (j.leftTable == "tags" || j.rightTable == "tags")) = false := by
  decide

/-- Claim C1, amended: the data model declares exactly two junction record
types, `post_categories` and `post_tags`; every junction has `posts` as one
endpoint, and the only junction involving `tags` links it to `posts` — so a
Tag can be related to Post records, but not to Page records. -/
theorem junctions_link_posts_only :
    junctionTables.map JunctionTable.name = ["post_categories", "post_tags"] ∧
    (junctionTables.all fun j => j.leftTable == "posts") = true ∧
    ((junctionTables.filter fun j =>
        j.leftTable == "tags" || j.rightTable == "tags").map
      fun j => (j.name, j.leftTable)) = [("post_tags", "posts")] := by
  refine ⟨?_, ?_, ?_⟩ <;> decide

/-- Claim C3, counterexample: the claim asserts that constructing a record
with a constraint-violating field value signals a typed validation error;
in the code a `User` table record built with a 51-character username and a
pattern-violating email is constructed without any error, storing exactly
the given values, even though the declared field constraints reject them
(SQLModel `table=True` models run no validation at construction). -/
theorem user_construct_no_validation :
    (User.construct longUsername "not-an-email" "h" "Ada" "Lovelace" 0).username
        = longUsername ∧
    (User.construct longUsername "not-an-email" "h" "Ada" "Lovelace" 0).email
        = "not-an-email" ∧
    User.constraintsOk
        (User.construct longUsername "not-an-email" "h" "Ada" "Lovelace" 0)
      = false := by
  refine ⟨rfl, rfl, ?_⟩
  decide

/-- Claim C3, amended: constructing a persistent entity record performs no
validation — the record always stores exactly the given field values; the
declared constraints (length bounds, email pattern) form a separate
validity predicate that is not evaluated at construction time. -/
theorem user_construct_stores_values_as_given :
    ∀ (un em ph fn ln : String) (now : Nat),
      (User.construct un em ph fn ln now).username = un ∧
      (User.construct un em ph fn ln now).email = em ∧
      (User.construct un em ph fn ln now).password_hash = ph ∧
      (User.construct un em ph fn ln now).first_name = fn ∧
      (User.construct un em ph fn ln now).last_name = ln := by
  intro un em ph fn ln now
  exact ⟨rfl, rfl, rfl, rfl, rfl⟩

/-- Claim C4, counterexample: the claim asserts that a `UserCreate` whose
email does not match the email pattern fails validation; in the code
`UserCreate.email` declares only a length bound and no regex, so the
payload `malformedEmailCreate` — whose email fails the `User` email
pattern — passes `UserCreate` validation. -/
theorem userCreate_accepts_malformed_email :
    emailMatches malformedEmailCreate.email = false ∧
    userCreateOk malformedEmailCreate = true := by
  refine ⟨?_, ?_⟩ <;> decide

/-- Claim C4, amended: `UserCreate` mirrors the length bounds of the
stored `User` fields minus server-assigned fields and adds a password
minimum length, but it does not carry the email pattern: every validated
payload satisfies the length bounds, while there is a payload with a
pattern-violating email that passes validation. -/
theorem userCreate_mirrors_length_bounds_only :
    (∀ c : UserCreate, userCreateOk c = true →
      c.username.length ≤ 50 ∧ c.email.length ≤ 255 ∧
      8 ≤ c.password.length ∧ c.first_name.length ≤ 100 ∧
      c.last_name.length ≤ 100) ∧
    (∃ c : UserCreate,
      userCreateOk c = true ∧ emailMatches c.email = false) := by
  constructor
  · intro c h
    simp only [userCreateOk, Bool.and_eq_true, decide_eq_true_eq] at h
    exact ⟨h.1.1.1.1, h.1.1.1.2, h.1.1.2, h.1.2, h.2⟩
  · exact ⟨malformedEmailCreate, by decide, by decide⟩

/-- Claim C4, witness: the length-bound consequence of
`userCreate_mirrors_length_bounds_only` instantiated at the concrete
payload `malformedEmailCreate`, whose validation succeeds. -/
theorem userCreate_mirrors_length_bounds_only_witness :
    malformedEmailCreate.username.length ≤ 50 ∧
    malformedEmailCreate.email.length ≤ 255 ∧
    8 ≤ malformedEmailCreate.password.length ∧
    malformedEmailCreate.first_name.length ≤ 100 ∧
    malformedEmailCreate.last_name.length ≤ 100 :=
  userCreate_mirrors_length_bounds_only.1 malformedEmailCreate (by decide)

/-- Claim C8, counterexample: the claim asserts that every `Page` record
carries an optional reference to a Category; in the model no `Page` column
has a foreign key to `categories` and no column is named `category_id`. -/
theorem page_category_reference_absent :
    ((pageColumns.filter fun col => col.2 == some "categories") = []) ∧
    ((pageColumns.all fun col => !(col.1 == "category_id")) = true) := by
  refine ⟨?_, ?_⟩ <;> decide

/-- Claim C8, amended: a `Page` belongs to a `User` (`author_id → users`)
and has a nullable self-referential parent (`parent_id → pages`); these are
its only foreign keys, and it carries no Category reference. -/
theorem page_foreign_keys_parent_and_author :
    (pageColumns.filterMap fun col => col.2.map fun t => (col.1, t)) =
      [("parent_id", "pages"), ("author_id", "users")] ∧
    (∀ p : Page, p.parent_id = none ∨ ∃ k, p.parent_id = some k) := by
  constructor
  · decide
  · intro p
    cases h : p.parent_id with
    | none => exact Or.inl rfl
    | some k => exact Or.inr ⟨k, rfl⟩

/-- Claim C2: Update schemas distinguish the three states of a nullable
field — on a stored record whose `parent_id` is set, an update with
`parent_id` absent leaves it unchanged, an update with `parent_id`
explicitly null clears it, and an update with `parent_id` set to a value
stores that value; in particular absent and explicit null yield different
stored results. Shown for `PageUpdate.parent_id` and
`CategoryUpdate.parent_id`. -/
theorem update_nullable_tristate :
    (∀ (pg : Page) (k j : Int), pg.parent_id = some k →
      (applyPageUpdate pg pageUpdateAbsent).parent_id = some k ∧
      (applyPageUpdate pg pageUpdateNullParent).parent_id = none ∧
      (applyPageUpdate pg (pageUpdateSetParent j)).parent_id = some j ∧
      (applyPageUpdate pg pageUpdateAbsent).parent_id ≠
        (applyPageUpdate pg pageUpdateNullParent).parent_id) ∧
    (∀ (c : Category) (k j : Int), c.parent_id = some k →
      (applyCategoryUpdate c categoryUpdateAbsent).parent_id = some k ∧
      (applyCategoryUpdate c categoryUpdateNullParent).parent_id = none ∧
      (applyCategoryUpdate c (categoryUpdateSetParent j)).parent_id = some j ∧
      (applyCategoryUpdate c categoryUpdateAbsent).parent_id ≠
        (applyCategoryUpdate c categoryUpdateNullParent).parent_id) := by
  constructor
  · intro pg k j hk
    refine ⟨?_, ?_, ?_, ?_⟩
    · simp [applyPageUpdate, pageUpdateAbsent, hk]
    · simp [applyPageUpdate, pageUpdateNullParent, pageUpdateAbsent]
    · simp [applyPageUpdate, pageUpdateSetParent, pageUpdateAbsent]
    · simp [applyPageUpdate, pageUpdateNullParent, pageUpdateAbsent, hk]
  · intro c k j hk
    refine ⟨?_, ?_, ?_, ?_⟩
    · simp [applyCategoryUpdate, categoryUpdateAbsent, hk]
    · simp [applyCategoryUpdate, categoryUpdateNullParent, categoryUpdateAbsent]
    · simp [applyCategoryUpdate, categoryUpdateSetParent, categoryUpdateAbsent]
    · simp [applyCategoryUpdate, categoryUpdateNullParent, categoryUpdateAbsent, hk]

/-- Claim C2, witness: `update_nullable_tristate` instantiated at
`samplePage` and `sampleCategory`, both of which have `parent_id = some 2`:
the absent-field update keeps the parent, the explicitly-null update clears
it. -/
theorem update_nullable_tristate_witness :
    (applyPageUpdate samplePage pageUpdateAbsent).parent_id = some 2 ∧
    (applyPageUpdate samplePage pageUpdateNullParent).parent_id = none ∧
    (applyCategoryUpdate sampleCategory categoryUpdateNullParent).parent_id
      = none := by
  have h1 := update_nullable_tristate.1 samplePage 2 7 rfl
  have h2 := update_nullable_tristate.2 sampleCategory 2 7 rfl
  exact ⟨h1.1, h1.2.1, h2.2.1⟩

/-- Claim C5: the round trip `PostCreate` → stored `Post` →
`PostResponse` preserves every payload field; the server populates the
identity and creation timestamp; and across a sequence of creations the
assigned identities and creation timestamps are strictly increasing in
creation order (hence monotonically non-decreasing). -/
theorem post_create_roundtrip_monotone :
    ∀ (s : Store) (a : Int),
      (∀ c : PostCreate,
        (postToResponse (createPost s c a).2).title = c.title ∧
        (postToResponse (createPost s c a).2).slug = c.slug ∧
        (postToResponse (createPost s c a).2).content = c.content ∧
        (postToResponse (createPost s c a).2).excerpt = c.excerpt ∧
        (postToResponse (createPost s c a).2).status = c.status ∧
        (postToResponse (createPost s c a).2).featured_image = c.featured_image ∧
        (postToResponse (createPost s c a).2).meta_data = c.meta_data ∧
        (postToResponse (createPost s c a).2).is_featured = c.is_featured ∧
        (postToResponse (createPost s c a).2).allow_comments = c.allow_comments ∧
        (createPost s c a).2.id = some s.nextId ∧
        (createPost s c a).2.created_at = s.clock) ∧
      (∀ cs : List PostCreate,
        ((createPosts s cs a).2.all fun p => p.id.isSome) = true ∧
        ((createPosts s cs a).2).Pairwise createdBefore) := by
  intro s a
  constructor
  · intro c
    exact ⟨rfl, rfl, rfl, rfl, rfl, rfl, rfl, rfl, rfl, rfl, rfl⟩
  · intro cs
    constructor
    · rw [List.all_eq_true]
      intro p hp
      obtain ⟨⟨i, hi, _⟩, _⟩ := createPosts_mem_bounds cs s a p hp
      simp [hi]
    · exact createPosts_pairwise cs s a

/-- Claim C6: applying an Update in which exactly one field is set changes
at most that one field of the stored record — every non-updatable stored
field is unchanged unconditionally, and every other updatable field is
unchanged whenever it is not the one set. Shown for `UserUpdate` on `User`
and `PostUpdate` on `Post`. -/
theorem single_field_update_frame :
    (∀ (us : User) (u : UserUpdate) (f : String), u.fields_set = [f] →
      (applyUserUpdate us u).id = us.id ∧
      (applyUserUpdate us u).password_hash = us.password_hash ∧
      (applyUserUpdate us u).created_at = us.created_at ∧
      (applyUserUpdate us u).updated_at = us.updated_at ∧
      (applyUserUpdate us u).last_login = us.last_login ∧
      (f ≠ "username" → (applyUserUpdate us u).username = us.username) ∧
      (f ≠ "email" → (applyUserUpdate us u).email = us.email) ∧
      (f ≠ "first_name" → (applyUserUpdate us u).first_name = us.first_name) ∧
      (f ≠ "last_name" → (applyUserUpdate us u).last_name = us.last_name) ∧
      (f ≠ "role" → (applyUserUpdate us u).role = us.role) ∧
      (f ≠ "is_active" → (applyUserUpdate us u).is_active = us.is_active)) ∧
    (∀ (p : Post) (u : PostUpdate) (f : String), u.fields_set = [f] →
      (applyPostUpdate p u).id = p.id ∧
      (applyPostUpdate p u).view_count = p.view_count ∧
      (applyPostUpdate p u).author_id = p.author_id ∧
      (applyPostUpdate p u).published_at = p.published_at ∧
      (applyPostUpdate p u).created_at = p.created_at ∧
      (applyPostUpdate p u).updated_at = p.updated_at ∧
      (f ≠ "title" → (applyPostUpdate p u).title = p.title) ∧
      (f ≠ "slug" → (applyPostUpdate p u).slug = p.slug) ∧
      (f ≠ "content" → (applyPostUpdate p u).content = p.content) ∧
      (f ≠ "excerpt" → (applyPostUpdate p u).excerpt = p.excerpt) ∧
      (f ≠ "status" → (applyPostUpdate p u).status = p.status) ∧
      (f ≠ "featured_image" →
        (applyPostUpdate p u).featured_image = p.featured_image) ∧
      (f ≠ "meta_data" → (applyPostUpdate p u).meta_data = p.meta_data) ∧
      (f ≠ "is_featured" →
        (applyPostUpdate p u).is_featured = p.is_featured) ∧
      (f ≠ "allow_comments" →
        (applyPostUpdate p u).allow_comments = p.allow_comments)) := by
  constructor
  · intro us u f hf
    refine ⟨rfl, rfl, rfl, rfl, rfl, ?_, ?_, ?_, ?_, ?_, ?_⟩ <;>
      · intro hne
        simp [applyUserUpdate, hf, Ne.symm hne]
  · intro p u f hf
    refine ⟨rfl, rfl, rfl, rfl, rfl, rfl, ?_, ?_, ?_, ?_, ?_, ?_, ?_, ?_, ?_⟩ <;>
      · intro hne
        simp [applyPostUpdate, hf, Ne.symm hne]

/-- Claim C6, witness: `single_field_update_frame` instantiated at
`sampleUser` with a username-only update and at `samplePost` with a
title-only update: the identity and another updatable field are left
unchanged. -/
theorem single_field_update_frame_witness :
    (applyUserUpdate sampleUser usernameOnlyUpdate).id = sampleUser.id ∧
    (applyUserUpdate sampleUser usernameOnlyUpdate).email = sampleUser.email ∧
    (applyPostUpdate samplePost titleOnlyUpdate).slug = samplePost.slug := by
  have hu := single_field_update_frame.1 sampleUser usernameOnlyUpdate "username" rfl
  have hp := single_field_update_frame.2 samplePost titleOnlyUpdate "title" rfl
  exact ⟨hu.1, hu.2.2.2.2.2.2.1 (by decide), hp.2.2.2.2.2.2.2.1 (by decide)⟩

/-- Claim C7: enum-typed fields only ever hold their declared closed-set
values — every `User.role` is admin or editor and every `Post.status` /
`Page.status` is draft, published or archived — and enum lookup succeeds
only on strings of the closed set, failing on any other value. -/
theorem enum_fields_closed_set :
    (∀ u : User, u.role = UserRole.admin ∨ u.role = UserRole.editor) ∧
    (∀ p : Post, p.status = ContentStatus.draft ∨
      p.status = ContentStatus.published ∨
      p.status = ContentStatus.archived) ∧
    (∀ pg : Page, pg.status = ContentStatus.draft ∨
      pg.status = ContentStatus.published ∨
      pg.status = ContentStatus.archived) ∧
    (∀ s : String, (UserRole.fromString s).isSome = true →
      s = "admin" ∨ s = "editor") ∧
    (∀ s : String, (ContentStatus.fromString s).isSome = true →
      s = "draft" ∨ s = "published" ∨ s = "archived") ∧
    UserRole.fromString "superadmin" = none ∧
    ContentStatus.fromString "deleted" = none := by
  refine ⟨?_, ?_, ?_, ?_, ?_, ?_, ?_⟩
  · intro u
    cases u.role with
    | admin => exact Or.inl rfl
    | editor => exact Or.inr rfl
  · intro p
    cases p.status with
    | draft => exact Or.inl rfl
    | published => exact Or.inr (Or.inl rfl)
    | archived => exact Or.inr (Or.inr rfl)
  · intro pg
    cases pg.status with
    | draft => exact Or.inl rfl
    | published => exact Or.inr (Or.inl rfl)
    | archived => exact Or.inr (Or.inr rfl)
  · intro s h
    by_cases h1 : s = "admin"
    · exact Or.inl h1
    · by_cases h2 : s = "editor"
      · exact Or.inr h2
      · simp [UserRole.fromString, h1, h2] at h
  · intro s h
    by_cases h1 : s = "draft"
    · exact Or.inl h1
    · by_cases h2 : s = "published"
      · exact Or.inr (Or.inl h2)
      · by_cases h3 : s = "archived"
        · exact Or.inr (Or.inr h3)
        · simp [ContentStatus.fromString, h1, h2, h3] at h
  · decide
  · decide

/-- Claim C7, witness: `enum_fields_closed_set` instantiated at the
concrete strings "admin" and "draft", whose enum lookups succeed. -/
theorem enum_fields_closed_set_witness :
    ("admin" = "admin" ∨ "admin" = "editor") ∧
    ("draft" = "draft" ∨ "draft" = "published" ∨ "draft" = "archived") :=
  ⟨enum_fields_closed_set.2.2.2.1 "admin" (by decide),
   enum_fields_closed_set.2.2.2.2.1 "draft" (by decide)⟩

/-- Claim C9: `UserResponse` declares neither a `password` nor a
`password_hash` field, and the response derived from a stored user does
not depend on the stored credential: two users differing only in
`password_hash` serialize to the same `UserResponse`. -/
theorem userResponse_excludes_credential :
    ("password" ∉ userResponseFields ∧
     "password_hash" ∉ userResponseFields) ∧
    (∀ (u : User) (h : String),
      userToResponse { u with password_hash := h } = userToResponse u) := by
  refine ⟨⟨by decide, by decide⟩, ?_⟩
  intro u h
  rfl

/-- Claim C10: `CommentCreate` declares no `is_approved` field and a
created comment takes the entity default `is_approved = false`;
`CommentUpdate` does declare `is_approved`, and applying an update that
sets it to true approves the comment. -/
theorem comment_created_unapproved :
    ("is_approved" ∉ commentCreateFields) ∧
    ("is_approved" ∈ commentUpdateFields) ∧
    (∀ (s : Store) (c : CommentCreate),
      (createComment s c).2.is_approved = false) ∧
    (∀ cm : Comment,
      (applyCommentUpdate cm approveCommentUpdate).is_approved = true) := by
  refine ⟨by decide, by decide, ?_, ?_⟩
  · intro s c
    rfl
  · intro cm
    simp [applyCommentUpdate, approveCommentUpdate]

end CMS
